import Mathlib

/-!
Shallow embedding of `src/memory/chats.rs` from the `aichat` repository:
a thin HTTP client for a remote "memory server", exposing six operations
over a `Chat` resource and its `ChatMessage`s.

JSON values are modelled by an inductive `Json`; serde's derived
`Serialize`/`Deserialize` for `Chat` and `ChatMessage` are modelled by
explicit to/from-Json functions that follow the derive semantics
(field renames from the `#[serde(rename = ...)]` attributes, unknown
fields ignored, missing fields rejected).

Each Rust `async fn` is embedded as a pure function taking a network
oracle `net : Request → Option Response` (`none` models a transport
error from `send()`); it returns the client state after the call, the
list of requests issued, and an `Except ClientError α` result that
mirrors the source's control flow: transport errors propagate via `?`,
a non-2xx status produces an `anyhow!` message embedding the body text
(`text().await.unwrap_or_default()`), and a 2xx body that fails JSON
deserialization produces a decode error (with the `.context(...)`
string when the source attaches one).
-/

/-- JSON value, as produced and consumed by serde_json. -/
inductive Json where
  | null : Json
  | bool (b : Bool) : Json
  | str (s : String) : Json
  | num (n : Int) : Json
  | arr (items : List Json) : Json
  | obj (fields : List (String × Json)) : Json
deriving Repr

/-- Keys of a JSON object (empty for non-objects). -/
def Json.keys : Json → List String
  | .obj fields => fields.map (fun p => p.1)
  | _ => []

/-- Whether a JSON value is an object with the given key. -/
def Json.hasKey (j : Json) (key : String) : Bool :=
  (Json.keys j).contains key

/-- Field lookup in a JSON object's field list, first match (serde reads fields by name). -/
def jLookup (fields : List (String × Json)) (key : String) : Option Json :=
  match fields.find? (fun p => p.1 == key) with
  | some p => some p.2
  | none => none

/-- serde: deserialize a JSON value as a string. -/
def asStr : Json → Option String
  | .str s => some s
  | _ => none

/-- serde: deserialize a JSON value as a boolean. -/
def asBool : Json → Option Bool
  | .bool b => some b
  | _ => none

/-- Modelled from the spec: `MessageRole` lives in `crate::client`, which is not part of
this excerpt. The spec describes it as a closed enumerated sender category
(e.g. user/assistant/system) with a wire-compatible string encoding. -/
inductive MessageRole where
  | user : MessageRole
  | assistant : MessageRole
  | system : MessageRole
deriving DecidableEq, Repr

/-- Modelled from the spec: string wire encoding of `MessageRole`. -/
def roleToJson : MessageRole → Json
  | .user => .str "user"
  | .assistant => .str "assistant"
  | .system => .str "system"

/-- Modelled from the spec: decoding of the `MessageRole` string wire encoding. -/
def roleFromJson : Json → Option MessageRole
  | .str s =>
      if s == "user" then some .user
      else if s == "assistant" then some .assistant
      else if s == "system" then some .system
      else none
  | _ => none

/-- Rust `struct Chat` (`src/memory/chats.rs:8`): `id`, and `session_id`,
`created_at`, `updated_at` carrying `#[serde(rename)]` to camelCase. -/
structure Chat where
  id : String
  session_id : String
  created_at : String
  updated_at : String
deriving DecidableEq, Repr

/-- Rust `struct ChatMessage` (`src/memory/chats.rs:19`): fields `role`,
`content`, `is_sync`; note that none of its fields carries a
`#[serde(rename)]` attribute, so serde uses the field names verbatim. -/
structure ChatMessage where
  role : MessageRole
  content : String
  is_sync : Bool
deriving DecidableEq, Repr

/-- Derived `Serialize` for `Chat`: keys `id`, `sessionId`, `createdAt`,
`updatedAt` (the latter three renamed by the serde attributes). -/
def chatToJson (c : Chat) : Json :=
  .obj [("id", .str c.id), ("sessionId", .str c.session_id),
        ("createdAt", .str c.created_at), ("updatedAt", .str c.updated_at)]

/-- Derived `Deserialize` for `Chat`: requires an object with all four keys
(renamed ones under their camelCase names), ignores unknown fields. -/
def chatFromJson : Json → Option Chat
  | .obj fields => do
      let id ← (jLookup fields "id").bind asStr
      let session_id ← (jLookup fields "sessionId").bind asStr
      let created_at ← (jLookup fields "createdAt").bind asStr
      let updated_at ← (jLookup fields "updatedAt").bind asStr
      pure ⟨id, session_id, created_at, updated_at⟩
  | _ => none

/-- Derived `Serialize` for `ChatMessage`: keys `role`, `content`, `is_sync`
(no serde rename on any field, so the snake_case field name is the wire key). -/
def chatMessageToJson (m : ChatMessage) : Json :=
  .obj [("role", roleToJson m.role), ("content", .str m.content),
        ("is_sync", .bool m.is_sync)]

/-- Derived `Deserialize` for `ChatMessage`: requires keys `role`, `content`,
`is_sync`, ignores unknown fields. -/
def chatMessageFromJson : Json → Option ChatMessage
  | .obj fields => do
      let role ← (jLookup fields "role").bind roleFromJson
      let content ← (jLookup fields "content").bind asStr
      let is_sync ← (jLookup fields "is_sync").bind asBool
      pure ⟨role, content, is_sync⟩
  | _ => none

/-- `Vec<Chat>` deserialization: a JSON array, every element a `Chat`. -/
def chatsFromJson : Json → Option (List Chat)
  | .arr items => items.mapM chatFromJson
  | _ => none

/-- `Vec<ChatMessage>` deserialization: a JSON array, every element a `ChatMessage`. -/
def messagesFromJson : Json → Option (List ChatMessage)
  | .arr items => items.mapM chatMessageFromJson
  | _ => none

/-- Modelled from the spec: `MemoryClient` lives in `crate::memory`, outside this
excerpt. Per the spec it holds only the immutable configuration (the base URL,
used as `client.config.base_url`) and the transport handle (`client.client`,
a reqwest client, modelled as an opaque token). -/
structure MemoryConfig where
  base_url : String
deriving DecidableEq, Repr

/-- Modelled from the spec: the client record passed by shared reference to every
operation; `handle` stands for the reqwest transport handle. -/
structure MemoryClient where
  config : MemoryConfig
  handle : Nat
deriving DecidableEq, Repr

/-- HTTP method used by this file (reqwest `post`/`get`/`put`). -/
inductive Method where
  | POST : Method
  | GET : Method
  | PUT : Method
deriving DecidableEq, Repr

/-- An HTTP request as built by the source: method, the URL produced by
`format!`, and the optional JSON body attached with `.json(...)`. -/
structure Request where
  method : Method
  url : String
  body : Option Json
deriving Repr

/-- An HTTP response as observed by the source: its status code, the result
of `text()` (`none` when the body could not be read, in which case
`unwrap_or_default()` yields the empty string), and the result of reading
the body as JSON for `json::<T>()` (`none` when the body is not valid JSON). -/
structure Response where
  status : Nat
  text : Option String
  json : Option Json

/-- reqwest `StatusCode::is_success`: status in 200..=299. -/
def is_success (status : Nat) : Bool :=
  200 ≤ status && status < 300

/-- Error values as constructed by the source, one constructor per
construction site kind: `transport` is a `reqwest` send error propagated by
`?`; `status` is the `anyhow!` error built on a non-2xx status, carrying the
formatted message; `decode` is a body-deserialization failure, carrying the
`.context(...)` string when the source attaches one (`none` for the bare `?`
in `chat_get_messages`). -/
inductive ClientError where
  | transport : ClientError
  | status (msg : String) : ClientError
  | decode (ctx : Option String) : ClientError
deriving DecidableEq, Repr

/-- Outcome of one embedded operation: the client state after the call (the
source takes `&MemoryClient` and never mutates it), the requests issued,
and the returned `Result`. -/
structure OpOutcome (α : Type) where
  client : MemoryClient
  sent : List Request
  result : Except ClientError α

/-- Map the result of an outcome, keeping client state and request trace. -/
def OpOutcome.map {α β : Type} (f : α → β) (o : OpOutcome α) : OpOutcome β :=
  ⟨o.client, o.sent, o.result.map f⟩

/-- Rust `chat_create`: POST `{base_url}/chats` with body `{"sessionId": session_id}`;
non-2xx yields `anyhow!("Failed to create chat: {}", body)`; a 2xx body is parsed
as `Chat` with context "Failed to parse chat". -/
def chat_create (client : MemoryClient) (session_id : String)
    (net : Request → Option Response) : OpOutcome Chat :=
  let req : Request :=
    ⟨.POST, client.config.base_url ++ "/chats",
      some (.obj [("sessionId", .str session_id)])⟩
  let result : Except ClientError Chat :=
    match net req with
    | none => .error .transport
    | some response =>
        if !(is_success response.status) then
          let error := response.text.getD ""
          .error (.status ("Failed to create chat: " ++ error))
        else
          match response.json.bind chatFromJson with
          | none => .error (.decode (some "Failed to parse chat"))
          | some chat => .ok chat
  ⟨client, [req], result⟩

/-- Rust `chat_get`: GET `{base_url}/chats/{chat_id}`; non-2xx yields
`anyhow!("Failed to get chat: {}", body)`; a 2xx body is parsed as `Chat`
with context "Failed to parse chat". -/
def chat_get (client : MemoryClient) (chat_id : String)
    (net : Request → Option Response) : OpOutcome Chat :=
  let req : Request :=
    ⟨.GET, client.config.base_url ++ "/chats/" ++ chat_id, none⟩
  let result : Except ClientError Chat :=
    match net req with
    | none => .error .transport
    | some response =>
        if !(is_success response.status) then
          let error := response.text.getD ""
          .error (.status ("Failed to get chat: " ++ error))
        else
          match response.json.bind chatFromJson with
          | none => .error (.decode (some "Failed to parse chat"))
          | some chat => .ok chat
  ⟨client, [req], result⟩

/-- Rust `chat_list`: GET `{base_url}/chats`; non-2xx yields
`anyhow!("Failed to list chats: {}", body)`; a 2xx body is parsed as
`Vec<Chat>` with context "Failed to parse chats". -/
def chat_list (client : MemoryClient)
    (net : Request → Option Response) : OpOutcome (List Chat) :=
  let req : Request :=
    ⟨.GET, client.config.base_url ++ "/chats", none⟩
  let result : Except ClientError (List Chat) :=
    match net req with
    | none => .error .transport
    | some response =>
        if !(is_success response.status) then
          let error := response.text.getD ""
          .error (.status ("Failed to list chats: " ++ error))
        else
          match response.json.bind chatsFromJson with
          | none => .error (.decode (some "Failed to parse chats"))
          | some chats => .ok chats
  ⟨client, [req], result⟩

/-- Rust `chat_add_messages`: PUT `{base_url}/chats/{chat_id}/messages` with
body `{"messages": [...]}` (each message serialized by serde); non-2xx yields
`anyhow!("API sync failed: {}", body)`; a 2xx response returns `Ok(())`
without reading the body. -/
def chat_add_messages (client : MemoryClient) (chat_id : String)
    (messages : List ChatMessage)
    (net : Request → Option Response) : OpOutcome Unit :=
  let req : Request :=
    ⟨.PUT, client.config.base_url ++ "/chats/" ++ chat_id ++ "/messages",
      some (.obj [("messages", .arr (messages.map chatMessageToJson))])⟩
  let result : Except ClientError Unit :=
    match net req with
    | none => .error .transport
    | some response =>
        if !(is_success response.status) then
          let error := response.text.getD ""
          .error (.status ("API sync failed: " ++ error))
        else
          .ok ()
  ⟨client, [req], result⟩

/-- Rust `chat_get_messages`: GET `{base_url}/chats/{chat_id}/messages`;
non-2xx yields `anyhow!("Failed to get messages: {}", body)`; a 2xx body is
parsed as `Vec<ChatMessage>` with no added context (bare `?`). -/
def chat_get_messages (client : MemoryClient) (chat_id : String)
    (net : Request → Option Response) : OpOutcome (List ChatMessage) :=
  let req : Request :=
    ⟨.GET, client.config.base_url ++ "/chats/" ++ chat_id ++ "/messages", none⟩
  let result : Except ClientError (List ChatMessage) :=
    match net req with
    | none => .error .transport
    | some response =>
        if !(is_success response.status) then
          let error := response.text.getD ""
          .error (.status ("Failed to get messages: " ++ error))
        else
          match response.json.bind messagesFromJson with
          | none => .error (.decode none)
          | some messages => .ok messages
  ⟨client, [req], result⟩

/-- Rust `chat_set_summary`: PUT `{base_url}/chats/{chat_id}/summary` with
body `{"summary": summary}`; non-2xx yields
`anyhow!("Failed to set chat summary: {}", body)`; a 2xx response returns
`Ok(())` without reading the body. -/
def chat_set_summary (client : MemoryClient) (chat_id : String)
    (summary : String)
    (net : Request → Option Response) : OpOutcome Unit :=
  let req : Request :=
    ⟨.PUT, client.config.base_url ++ "/chats/" ++ chat_id ++ "/summary",
      some (.obj [("summary", .str summary)])⟩
  let result : Except ClientError Unit :=
    match net req with
    | none => .error .transport
    | some response =>
        if !(is_success response.status) then
          let error := response.text.getD ""
          .error (.status ("Failed to set chat summary: " ++ error))
        else
          .ok ()
  ⟨client, [req], result⟩

/-- One call to any of the six operations, with its arguments. -/
inductive OpCall where
  | create (session_id : String) : OpCall
  | get (chat_id : String) : OpCall
  | list : OpCall
  | addMessages (chat_id : String) (messages : List ChatMessage) : OpCall
  | getMessages (chat_id : String) : OpCall
  | setSummary (chat_id : String) (summary : String) : OpCall

/-- Success value of any of the six operations, injected into one type. -/
inductive OpResult where
  | chat (c : Chat) : OpResult
  | chats (cs : List Chat) : OpResult
  | unit : OpResult
  | messages (ms : List ChatMessage) : OpResult
deriving Repr

/-- Uniform dispatcher over the six operations. -/
def runOp (client : MemoryClient) (op : OpCall)
    (net : Request → Option Response) : OpOutcome OpResult :=
  match op with
  | .create session_id => (chat_create client session_id net).map OpResult.chat
  | .get chat_id => (chat_get client chat_id net).map OpResult.chat
  | .list => (chat_list client net).map OpResult.chats
  | .addMessages chat_id messages =>
      (chat_add_messages client chat_id messages net).map (fun _ => OpResult.unit)
  | .getMessages chat_id => (chat_get_messages client chat_id net).map OpResult.messages
  | .setSummary chat_id summary =>
      (chat_set_summary client chat_id summary net).map (fun _ => OpResult.unit)

/-- The generic failure label each operation prefixes to the body text of a
non-2xx response (the literal before `{}` in the source's `anyhow!` format). -/
def opFailLabel : OpCall → String
  | .create _ => "Failed to create chat: "
  | .get _ => "Failed to get chat: "
  | .list => "Failed to list chats: "
  | .addMessages _ _ => "API sync failed: "
  | .getMessages _ => "Failed to get messages: "
  | .setSummary _ _ => "Failed to set chat summary: "

/-- Whether a result is the error produced by the non-2xx status branch. -/
def isStatusError {α : Type} : Except ClientError α → Bool
  | .error (.status _) => true
  | _ => false

/-! Helper lemmas: serde round-trip for `ChatMessage`. -/

/-- Deserializing the serialization of a single `ChatMessage` returns it unchanged. -/
theorem chatMessage_roundtrip (m : ChatMessage) :
    chatMessageFromJson (chatMessageToJson m) = some m := by
  obtain ⟨r, c, b⟩ := m
  cases r <;> rfl

/-- Element-wise round trip lifted through `List.mapM`. -/
theorem mapM_messages_roundtrip (ms : List ChatMessage) :
    (ms.map chatMessageToJson).mapM chatMessageFromJson = some ms := by
  rw [← List.mapM'_eq_mapM]
  induction ms with
  | nil => rfl
  | cons m rest ih =>
      rw [List.map_cons, List.mapM'_cons, chatMessage_roundtrip, ih]
      rfl

/-- Deserializing the serialized message array returns the original list. -/
theorem messages_roundtrip (ms : List ChatMessage) :
    messagesFromJson (.arr (ms.map chatMessageToJson)) = some ms :=
  mapM_messages_roundtrip ms

/-- Claim C1, counterexample: the spec's example message
`{role: user, content: "hi", isSync: false}` does not serialize with an
`isSync` key; the wire object's keys are `role`, `content`, `is_sync`,
because the `is_sync` field of `ChatMessage` carries no serde rename. -/
theorem chatMessage_isSync_key_refuted :
    (chatMessageToJson ⟨.user, "hi", false⟩).hasKey "isSync" = false
    ∧ Json.keys (chatMessageToJson ⟨.user, "hi", false⟩) = ["role", "content", "is_sync"] :=
  ⟨rfl, rfl⟩

/-- Claim C1, amended: a `Chat` serializes with camelCase keys `id`,
`sessionId`, `createdAt`, `updatedAt`, but a `ChatMessage` serializes with
keys `role`, `content`, `is_sync` (snake_case, no serde rename), and its
deserializer likewise rejects an object carrying the flag under `isSync`
instead of `is_sync`. -/
theorem wire_field_names_amended (c : Chat) (m : ChatMessage)
    (r : MessageRole) (content : String) (b : Bool) :
    Json.keys (chatToJson c) = ["id", "sessionId", "createdAt", "updatedAt"]
    ∧ Json.keys (chatMessageToJson m) = ["role", "content", "is_sync"]
    ∧ chatMessageFromJson (.obj [("role", roleToJson r), ("content", .str content),
        ("isSync", .bool b)]) = none := by
  refine ⟨rfl, rfl, ?_⟩
  cases r <;> rfl

/-- Claim C2: for every one of the six operations, a response with a
non-2xx status yields an error whose message is the operation's generic
failure label followed by the response body text verbatim when the body
could be read, and by the empty string when it could not
(`text().await.unwrap_or_default()`). -/
theorem nonSuccess_error_embeds_body (client : MemoryClient) (op : OpCall)
    (resp : Response) (h : is_success resp.status = false) :
    (runOp client op (fun _ => some resp)).result
      = .error (.status (opFailLabel op ++ resp.text.getD "")) := by
  cases op <;>
    simp [runOp, chat_create, chat_get, chat_list, chat_add_messages,
      chat_get_messages, chat_set_summary, OpOutcome.map, opFailLabel, h, Except.map]

/-- Claim C2, witness: a 404 with body "chat not found" on get chat. -/
theorem nonSuccess_error_embeds_body_witness :
    (runOp ⟨⟨"http://m"⟩, 0⟩ (OpCall.get "c1")
        (fun _ => some ⟨404, some "chat not found", none⟩)).result
      = .error (.status "Failed to get chat: chat not found") :=
  nonSuccess_error_embeds_body ⟨⟨"http://m"⟩, 0⟩ (OpCall.get "c1")
    ⟨404, some "chat not found", none⟩ (by decide)

/-- Claim C3: for each of the four parsing operations, a 2xx response whose
body fails deserialization yields a `decode` error, and a `decode` error is
never equal to a `status` error (the class produced by a non-2xx status). -/
theorem decode_failure_distinct_class (client : MemoryClient)
    (session_id chat_id1 chat_id2 : String) (resp : Response)
    (hs : is_success resp.status = true)
    (h1 : resp.json.bind chatFromJson = none)
    (h2 : resp.json.bind chatsFromJson = none)
    (h3 : resp.json.bind messagesFromJson = none) :
    (chat_create client session_id (fun _ => some resp)).result
      = .error (.decode (some "Failed to parse chat"))
    ∧ (chat_get client chat_id1 (fun _ => some resp)).result
      = .error (.decode (some "Failed to parse chat"))
    ∧ (chat_list client (fun _ => some resp)).result
      = .error (.decode (some "Failed to parse chats"))
    ∧ (chat_get_messages client chat_id2 (fun _ => some resp)).result
      = .error (.decode none)
    ∧ (∀ (ctx : Option String) (msg : String),
        ClientError.decode ctx ≠ ClientError.status msg) := by
  refine ⟨?_, ?_, ?_, ?_, ?_⟩ <;>
    simp [chat_create, chat_get, chat_list, chat_get_messages, hs, h1, h2, h3]

/-- Claim C3, witness: a 200 whose body is not valid JSON. -/
theorem decode_failure_distinct_class_witness :
    (chat_create ⟨⟨"http://m"⟩, 0⟩ "s1" (fun _ => some ⟨200, some "not json", none⟩)).result
      = .error (.decode (some "Failed to parse chat"))
    ∧ (chat_get_messages ⟨⟨"http://m"⟩, 0⟩ "c2"
        (fun _ => some ⟨200, some "not json", none⟩)).result
      = .error (.decode none)
    ∧ ClientError.decode none ≠ ClientError.status "Failed to get messages: " := by
  have h := decode_failure_distinct_class ⟨⟨"http://m"⟩, 0⟩ "s1" "c1" "c2"
    ⟨200, some "not json", none⟩ (by decide) rfl rfl rfl
  exact ⟨h.1, h.2.2.2.1, h.2.2.2.2 none "Failed to get messages: "⟩

/-- Claim C4: each operation issues exactly the method, URL, and JSON body
of the external-interface table: POST `/chats` with `{"sessionId": ...}`,
GET `/chats/{id}`, GET `/chats`, PUT `/chats/{id}/messages` with
`{"messages": [...]}`, GET `/chats/{id}/messages`, and PUT
`/chats/{id}/summary` with `{"summary": ...}`, all against the configured
base URL. -/
theorem request_method_path_body (client : MemoryClient)
    (session_id chat_id : String) (messages : List ChatMessage)
    (summary : String) (net : Request → Option Response) :
    (chat_create client session_id net).sent
      = [⟨.POST, client.config.base_url ++ "/chats",
          some (.obj [("sessionId", .str session_id)])⟩]
    ∧ (chat_get client chat_id net).sent
      = [⟨.GET, client.config.base_url ++ "/chats/" ++ chat_id, none⟩]
    ∧ (chat_list client net).sent
      = [⟨.GET, client.config.base_url ++ "/chats", none⟩]
    ∧ (chat_add_messages client chat_id messages net).sent
      = [⟨.PUT, client.config.base_url ++ "/chats/" ++ chat_id ++ "/messages",
          some (.obj [("messages", .arr (messages.map chatMessageToJson))])⟩]
    ∧ (chat_get_messages client chat_id net).sent
      = [⟨.GET, client.config.base_url ++ "/chats/" ++ chat_id ++ "/messages", none⟩]
    ∧ (chat_set_summary client chat_id summary net).sent
      = [⟨.PUT, client.config.base_url ++ "/chats/" ++ chat_id ++ "/summary",
          some (.obj [("summary", .str summary)])⟩] :=
  ⟨rfl, rfl, rfl, rfl, rfl, rfl⟩

/-- Claim C5: for every operation, the result is the status-failure error
exactly when the status is outside 2xx, and among non-2xx statuses the
specific code never changes the outcome: two responses differing only in
their (non-2xx) status codes produce identical results. -/
theorem status_branch_uniform (client : MemoryClient) (op : OpCall) :
    (∀ resp : Response, isStatusError (runOp client op (fun _ => some resp)).result
        = !(is_success resp.status))
    ∧ (∀ (s1 s2 : Nat) (text : Option String) (json : Option Json),
        is_success s1 = false → is_success s2 = false →
        runOp client op (fun _ => some ⟨s1, text, json⟩)
          = runOp client op (fun _ => some ⟨s2, text, json⟩)) := by
  constructor
  · intro resp
    cases op with
    | create session_id =>
        cases hs : is_success resp.status with
        | false => simp [runOp, chat_create, OpOutcome.map, isStatusError, hs, Except.map]
        | true =>
            rcases hj : resp.json.bind chatFromJson with _ | c <;>
              simp [runOp, chat_create, OpOutcome.map, isStatusError, hs, hj, Except.map]
    | get chat_id =>
        cases hs : is_success resp.status with
        | false => simp [runOp, chat_get, OpOutcome.map, isStatusError, hs, Except.map]
        | true =>
            rcases hj : resp.json.bind chatFromJson with _ | c <;>
              simp [runOp, chat_get, OpOutcome.map, isStatusError, hs, hj, Except.map]
    | list =>
        cases hs : is_success resp.status with
        | false => simp [runOp, chat_list, OpOutcome.map, isStatusError, hs, Except.map]
        | true =>
            rcases hj : resp.json.bind chatsFromJson with _ | cs <;>
              simp [runOp, chat_list, OpOutcome.map, isStatusError, hs, hj, Except.map]
    | addMessages chat_id messages =>
        cases hs : is_success resp.status <;>
          simp [runOp, chat_add_messages, OpOutcome.map, isStatusError, hs, Except.map]
    | getMessages chat_id =>
        cases hs : is_success resp.status with
        | false => simp [runOp, chat_get_messages, OpOutcome.map, isStatusError, hs, Except.map]
        | true =>
            rcases hj : resp.json.bind messagesFromJson with _ | ms <;>
              simp [runOp, chat_get_messages, OpOutcome.map, isStatusError, hs, hj, Except.map]
    | setSummary chat_id summary =>
        cases hs : is_success resp.status <;>
          simp [runOp, chat_set_summary, OpOutcome.map, isStatusError, hs, Except.map]
  · intro s1 s2 text json h1 h2
    cases op <;>
      simp [runOp, chat_create, chat_get, chat_list, chat_add_messages,
        chat_get_messages, chat_set_summary, OpOutcome.map, h1, h2, Except.map]

/-- Claim C5, witness: 404 and 500 with the same body give the same outcome
on list chats, and the 404 outcome is the status-error class. -/
theorem status_branch_uniform_witness :
    isStatusError (runOp ⟨⟨"http://m"⟩, 0⟩ OpCall.list
        (fun _ => some ⟨404, some "a", none⟩)).result = !(is_success 404)
    ∧ runOp ⟨⟨"http://m"⟩, 0⟩ OpCall.list (fun _ => some ⟨404, some "a", none⟩)
        = runOp ⟨⟨"http://m"⟩, 0⟩ OpCall.list (fun _ => some ⟨500, some "a", none⟩) :=
  ⟨(status_branch_uniform ⟨⟨"http://m"⟩, 0⟩ OpCall.list).1 ⟨404, some "a", none⟩,
   (status_branch_uniform ⟨⟨"http://m"⟩, 0⟩ OpCall.list).2 404 500 (some "a") none
     (by decide) (by decide)⟩

/-- Claim C6: every call to any of the six operations issues exactly one
request, whatever the transport outcome (transport error, any status,
any body): there is no retry. -/
theorem single_request_per_call (client : MemoryClient) (op : OpCall)
    (net : Request → Option Response) :
    (runOp client op net).sent.length = 1 := by
  cases op <;> rfl

/-- Claim C7: on any 2xx response, append messages and set summary return
unit success; the response body (text or JSON, quantified arbitrary here)
is never inspected. -/
theorem success_unit_without_body (client : MemoryClient) (chat_id : String)
    (messages : List ChatMessage) (summary : String) (resp : Response)
    (hs : is_success resp.status = true) :
    (chat_add_messages client chat_id messages (fun _ => some resp)).result = .ok ()
    ∧ (chat_set_summary client chat_id summary (fun _ => some resp)).result = .ok () := by
  constructor <;> simp [chat_add_messages, chat_set_summary, hs]

/-- Claim C7, witness: a 204 with unreadable body still returns unit success. -/
theorem success_unit_without_body_witness :
    (chat_add_messages ⟨⟨"http://m"⟩, 0⟩ "c1" [⟨.user, "hi", false⟩]
        (fun _ => some ⟨204, none, none⟩)).result = .ok ()
    ∧ (chat_set_summary ⟨⟨"http://m"⟩, 0⟩ "c1" "sum"
        (fun _ => some ⟨204, none, none⟩)).result = .ok () :=
  success_unit_without_body ⟨⟨"http://m"⟩, 0⟩ "c1" [⟨.user, "hi", false⟩] "sum"
    ⟨204, none, none⟩ (by decide)

/-- Claim C8: append messages serializes exactly the submitted messages into
the request body, and fetching messages from a response carrying that
serialized array returns exactly the submitted list — roles, content and
sync flags unchanged; equivalently, deserializing the client's serialization
of any `ChatMessage` yields the original value. -/
theorem append_fetch_roundtrip (client : MemoryClient)
    (chat_id1 chat_id2 : String) (ms : List ChatMessage)
    (net : Request → Option Response) :
    (chat_add_messages client chat_id1 ms net).sent
      = [⟨.PUT, client.config.base_url ++ "/chats/" ++ chat_id1 ++ "/messages",
          some (.obj [("messages", .arr (ms.map chatMessageToJson))])⟩]
    ∧ (chat_get_messages client chat_id2
        (fun _ => some ⟨200, some "", some (.arr (ms.map chatMessageToJson))⟩)).result
      = .ok ms
    ∧ ∀ m : ChatMessage, chatMessageFromJson (chatMessageToJson m) = some m := by
  refine ⟨rfl, ?_, chatMessage_roundtrip⟩
  simp [chat_get_messages, is_success, messages_roundtrip]

/-- Claim C9: no operation mutates the client: the configuration (including
the base URL) and the transport handle after any call, whatever the
transport outcome, are the unchanged input client. -/
theorem client_state_unchanged (client : MemoryClient) (op : OpCall)
    (net : Request → Option Response) :
    (runOp client op net).client = client := by
  cases op <;> rfl

/-- Claim C10: request URLs are built by literal string concatenation of the
base URL, a fixed segment, and the raw `chat_id`, with no encoding or
validation; consequently a `chat_id` containing a slash changes the path:
get chat on `chat_id ++ "/messages"` issues exactly the request that
get messages issues on `chat_id`. -/
theorem url_literal_concat (client : MemoryClient) (chat_id : String)
    (messages : List ChatMessage) (summary : String)
    (net : Request → Option Response) :
    ((chat_get client chat_id net).sent.map Request.url)
      = [client.config.base_url ++ "/chats/" ++ chat_id]
    ∧ ((chat_add_messages client chat_id messages net).sent.map Request.url)
      = [client.config.base_url ++ "/chats/" ++ chat_id ++ "/messages"]
    ∧ ((chat_get_messages client chat_id net).sent.map Request.url)
      = [client.config.base_url ++ "/chats/" ++ chat_id ++ "/messages"]
    ∧ ((chat_set_summary client chat_id summary net).sent.map Request.url)
      = [client.config.base_url ++ "/chats/" ++ chat_id ++ "/summary"]
    ∧ (chat_get client (chat_id ++ "/messages") net).sent
      = (chat_get_messages client chat_id net).sent := by
  refine ⟨rfl, rfl, rfl, rfl, ?_⟩
  simp [chat_get, chat_get_messages, String.append_assoc]
